import Mathlib

/-!
Shallow embedding of the realtime socket message-correlation engine of
nakama-swift (Socket.swift): the collation counter, the collatedPromises
dictionary, the send path, the onReceivedData dispatch, the disconnect
and error wiring of Socket.init, the connect URL construction, and the
match-data and party-data send surface. Line numbers in the doc comments
refer to the Socket.swift source.
-/

namespace NakamaSocket

/-- Non-error payload kinds of the Nakama_Realtime_Envelope oneof that the
dispatch code inspects. The first eight are the kinds the collated switch
of onReceivedData (lines 197 to 220) recognises; the following ones are
those the uncollated switch (lines 153 to 184) recognises; unknownKind
stands for an unset oneof or any variant outside these lists, which both
switches send to their default branch. -/
inductive PKind where
  | rpc
  | channel
  | channelMessageAck
  | matchMsg
  | matchmakerTicket
  | status
  | party
  | partyMatchmakerTicket
  | channelMessage
  | channelPresence
  | matchData
  | matchPresence
  | matchmakerMatched
  | notifications
  | statusPresence
  | streamData
  | streamPresence
  | partyJoinRequest
  | partyData
  | partyPresence
  | partyClose
  | partyLeader
  | unknownKind
  deriving DecidableEq, Repr

/-- One decoded envelope payload: either the error variant carrying code
and message, or a non-error variant of some kind carrying an opaque body
standing for the decoded protobuf submessage. -/
inductive RTMessage where
  | error (code : Int) (message : String)
  | value (kind : PKind) (body : String)
  deriving DecidableEq, Repr

/-- Decoded Nakama_Realtime_Envelope as onReceivedData observes it: the
cid string (empty means unsolicited) and the oneof payload. -/
structure Envelope where
  cid : String
  message : RTMessage
  deriving DecidableEq, Repr

/-- Element type of the EventLoopPromise stored in collatedPromises.
Socket.send is generic over T and the call sites of Socket.swift
instantiate it at the listed protobuf message types; empty is
Google_Protobuf_Empty (the no-value expectation) and anyT is Swift Any,
which no call site ever uses but which the error branch of the collated
switch tests for with a conditional cast (line 192). -/
inductive ExpectedKind where
  | rpc
  | channel
  | channelMessageAck
  | matchMsg
  | matchmakerTicket
  | status
  | party
  | partyMatchmakerTicket
  | partyJoinRequest
  | empty
  | anyT
  deriving DecidableEq, Repr

/-- Final state of a pending promise once it has been completed: succeeded
with a decoded value, succeeded with Google_Protobuf_Empty, or failed with
a NakamaRealtimeError built from the error variant. -/
inductive Outcome where
  | value (kind : PKind) (body : String)
  | unit
  | failed (code : Int) (message : String)
  deriving DecidableEq, Repr

/-- One entry of the collatedPromises dictionary: the element type the
promise was created with, and the promise state (none while pending,
some once completed). -/
structure Pending where
  expected : ExpectedKind
  result : Option Outcome
  deriving DecidableEq, Repr

/-- What the collated switch of onReceivedData does to the looked-up
promise for one response: completes it, leaves it untouched (both
conditional casts of the error branch failed, or the default branch with a
promise that is not Empty-typed), or traps on a failing forced cast. -/
inductive ResolveResult where
  | completed (o : Outcome)
  | noEffect
  | crash
  deriving DecidableEq, Repr

/-- For the eight payload kinds the collated switch recognises (lines 197
to 220), the promise element type its forced cast demands; none for every
other kind, which falls to the default branch (lines 221 to 227). -/
def collatedExpected : PKind → Option ExpectedKind
  | PKind.rpc => some ExpectedKind.rpc
  | PKind.channel => some ExpectedKind.channel
  | PKind.channelMessageAck => some ExpectedKind.channelMessageAck
  | PKind.matchMsg => some ExpectedKind.matchMsg
  | PKind.matchmakerTicket => some ExpectedKind.matchmakerTicket
  | PKind.status => some ExpectedKind.status
  | PKind.party => some ExpectedKind.party
  | PKind.partyMatchmakerTicket => some ExpectedKind.partyMatchmakerTicket
  | _ => none

/-- Lines 190 to 227: the collated switch of onReceivedData, given the
element type of the stored promise and the response payload.
Error variant (lines 191 to 196): the code tries
`collatedPromise as? EventLoopPromise<Any>` and then
`as? EventLoopPromise<Google_Protobuf_Empty>`; Swift generic structs are
invariant, so the first conditional cast succeeds only for an Any-typed
promise and the second only for an Empty-typed one, and with any other
promise type both casts fail and nothing happens to the promise.
Recognised non-error kinds (lines 197 to 220): the code performs a forced
cast `as! EventLoopPromise<...>` to the kind's promise type and succeeds
the promise; the forced cast traps when the stored promise has a
different element type.
Default branch (lines 221 to 227): logs, then succeeds the promise with
Google_Protobuf_Empty() exactly when the conditional cast to an
Empty-typed promise succeeds. Logging is modelled as effect-free. -/
def resolveCollated (expected : ExpectedKind) (m : RTMessage) : ResolveResult :=
  match m with
  | RTMessage.error code message =>
      if expected = ExpectedKind.anyT then
        ResolveResult.completed (Outcome.failed code message)
      else if expected = ExpectedKind.empty then
        ResolveResult.completed (Outcome.failed code message)
      else
        ResolveResult.noEffect
  | RTMessage.value k body =>
      match collatedExpected k with
      | some t =>
          if expected = t then ResolveResult.completed (Outcome.value k body)
          else ResolveResult.crash
      | none =>
          if expected = ExpectedKind.empty then ResolveResult.completed Outcome.unit
          else ResolveResult.noEffect

/-- Association-list model of the Swift dictionary collatedPromises:
lookup of a key, first match wins (keys are unique because setKey
replaces an existing binding). -/
def lookupP : List (String × Pending) → String → Option Pending
  | [], _ => none
  | (k, v) :: t, c => if k = c then some v else lookupP t c

/-- Association-list model of dictionary subscript assignment: replaces
the binding of the key when present, appends it otherwise. -/
def setKey : List (String × Pending) → String → Pending → List (String × Pending)
  | [], c, v => [(c, v)]
  | (k, w) :: t, c, v => if k = c then (c, v) :: t else (k, w) :: setKey t c v

/-- Promise state after the collated switch acted on it: completing
records the outcome, while noEffect and crash leave the promise state as
it was (a trap ends the process; the entry itself is unchanged). -/
def applyResolve (p : Pending) (r : ResolveResult) : Pending :=
  match r with
  | ResolveResult.completed o => { p with result := some o }
  | _ => p

/-- Mutable state of the Socket that the correlation engine touches: the
collationCounter atomic (line 71) and the collatedPromises dictionary
(line 80). -/
structure SocketState where
  collationCounter : Int
  collatedPromises : List (String × Pending)
  deriving DecidableEq, Repr

/-- Line 135: collationCounter.wrappingIncrementThenLoad on a 64-bit
signed Int wraps from the maximum to the minimum value. -/
def wrapInc (c : Int) : Int :=
  if c = 2 ^ 63 - 1 then -(2 ^ 63) else c + 1

/-- Result of Socket.send as seen by the caller: either the envelope was
serialised and handed to socketAdapter.send and the caller awaits the
promise at the returned cid, or env.serializedData() threw and the error
propagated to the caller (the adapter send call carries no try, so
serialisation is the only synchronous failure of the send path). -/
inductive SendOutcome where
  | awaiting (cid : String)
  | encodeThrew (cid : String)
  deriving DecidableEq, Repr

/-- Lines 134 to 143: Socket.send increments the counter, stores a fresh
pending promise under the counter string, sets env.cid, serialises and
hands the bytes to the adapter. The promise is registered before the
serialisation attempt, and the code has no catch: when serialisation
throws, the function rethrows with the entry still registered and the
promise still pending. encodeFails says whether env.serializedData()
throws for this envelope. -/
def sendStep (s : SocketState) (expected : ExpectedKind) (encodeFails : Bool) :
    SocketState × SendOutcome :=
  let c := wrapInc s.collationCounter
  let cid := toString c
  let s' : SocketState :=
    ⟨c, setKey s.collatedPromises cid ⟨expected, none⟩⟩
  if encodeFails then (s', SendOutcome.encodeThrew cid) else (s', SendOutcome.awaiting cid)

/-- State update of one collated resolution: a completion rewrites the
promise state in place under its cid; no branch of the switch removes the
entry from the dictionary (the source contains no removal at all). -/
def resolveStep (s : SocketState) (cid : String) (p : Pending) (r : ResolveResult) :
    SocketState :=
  match r with
  | ResolveResult.completed o =>
      { s with collatedPromises := setKey s.collatedPromises cid { p with result := some o } }
  | _ => s

/-- Observable effect of one onReceivedData invocation. push stands for
the uncollated switch (lines 149 to 187) handing the message to the
matching handler slot; resolved for the collated switch acting on the
looked-up promise; orphan for the log-only branch of line 229; and
decodeFailureLoggedAndErrorHook for the catch block of lines 232 to 236,
which logs and invokes the onError hook. -/
inductive Effect where
  | decodeFailureLoggedAndErrorHook
  | push (m : RTMessage)
  | resolved (cid : String) (r : ResolveResult)
  | orphan (cid : String)
  | disconnectHandlerFired
  | errorHandlerFired
  deriving DecidableEq, Repr

/-- Outcome of Nakama_Realtime_Envelope(serializedData:) on one inbound
frame: the decoded envelope, or a thrown deserialisation error. -/
inductive DecodeResult where
  | failure
  | ok (e : Envelope)
  deriving DecidableEq, Repr

/-- Lines 149 to 231: dispatch of one successfully decoded envelope. An
empty cid goes to the uncollated switch, which invokes handler slots and
never touches the dictionary. A non-empty cid is looked up in
collatedPromises: a hit runs the collated switch on the stored promise,
and a miss only logs the orphan cid (lines 228 to 230). -/
def stepOk (s : SocketState) (e : Envelope) : SocketState × Effect :=
  if e.cid = "" then
    (s, Effect.push e.message)
  else
    match lookupP s.collatedPromises e.cid with
    | some p =>
        let r := resolveCollated p.expected e.message
        (resolveStep s e.cid p r, Effect.resolved e.cid r)
    | none => (s, Effect.orphan e.cid)

/-- Lines 145 to 237: onReceivedData. A frame whose deserialisation throws
is handled by the catch block, which logs, invokes the onError hook and
returns with the state untouched; a decoded frame is dispatched. -/
def onReceivedData (s : SocketState) (d : DecodeResult) : SocketState × Effect :=
  match d with
  | DecodeResult.failure => (s, Effect.decodeFailureLoggedAndErrorHook)
  | DecodeResult.ok e => stepOk s e

/-- Sequential delivery of a list of decoded correlated responses, one
onReceivedData invocation per frame. -/
def processResponses : SocketState → List Envelope → SocketState
  | s, [] => s
  | s, e :: t => processResponses (stepOk s e).1 t

/-- Lines 99 to 101: the adapter onDisconnect closure installed by
Socket.init invokes the public onDisconnect handler and nothing else; no
pending promise is failed or removed and the state is untouched. -/
def onDisconnectTransition (s : SocketState) : SocketState × Effect :=
  (s, Effect.disconnectHandlerFired)

/-- Lines 103 to 105: the adapter onError closure installed by Socket.init
invokes the public onError handler and nothing else; the state is
untouched. -/
def onErrorTransition (s : SocketState) : SocketState × Effect :=
  (s, Effect.errorHandlerFired)

/-- URL as assembled by URLComponents in Socket.connect: scheme, host,
port, path and the ordered query items. -/
structure URLModel where
  scheme : String
  urlHost : String
  urlPort : Int
  path : String
  queryItems : List (String × String)
  deriving DecidableEq, Repr

/-- Lines 112 to 128: Socket.connect builds the URL from the stored host,
port and ssl flag and the session token: scheme wss when ssl else ws,
path /ws, query items token and format, and a status item appended
exactly when appearOnline is non-nil, with value true or false after the
flag. -/
def connectURL (host : String) (port : Int) (ssl : Bool) (token : String)
    (appearOnline : Option Bool) : URLModel :=
  { scheme := if ssl then "wss" else "ws"
    urlHost := host
    urlPort := port
    path := "/ws"
    queryItems :=
      [("token", token), ("format", "protobuf")] ++
        (match appearOnline with
          | none => []
          | some b => [("status", if b then "true" else "false")]) }

/-- Registry-level effect of a data send that does not go through
Socket.send: sentWithoutEntry when the envelope is serialised and handed
straight to socketAdapter.send, neverSent when the function returns
without passing the envelope to anything. -/
inductive NotifyEffect where
  | sentWithoutEntry
  | neverSent
  deriving DecidableEq, Repr

/-- Lines 368 to 402: both sendMatchData overloads build a MatchDataSend
envelope, serialise it and hand the bytes directly to socketAdapter.send;
they never touch collationCounter or collatedPromises. -/
def sendMatchDataStep (s : SocketState) : SocketState × NotifyEffect :=
  (s, NotifyEffect.sentWithoutEntry)

/-- Lines 485 to 492: the Data overload of sendPartyData does not go to
the adapter directly; it awaits Socket.send with result type
Google_Protobuf_Empty, so it allocates a cid and registers a pending
promise like any correlated request. -/
def sendPartyDataBinaryStep (s : SocketState) : SocketState × SendOutcome :=
  sendStep s ExpectedKind.empty false

/-- Lines 494 to 503: the String overload of sendPartyData converts the
string, fills the envelope fields and then returns; it never calls
Socket.send or socketAdapter.send, so nothing is transmitted and the
state is untouched. -/
def sendPartyDataStringStep (s : SocketState) : SocketState × NotifyEffect :=
  (s, NotifyEffect.neverSent)

/-- Lookup after a dictionary assignment: the assigned key now maps to the
assigned value and every other key is unaffected. -/
theorem lookupP_setKey (l : List (String × Pending)) (c k : String) (v : Pending) :
    lookupP (setKey l c v) k = if c = k then some v else lookupP l k := by
  induction l with
  | nil =>
      by_cases h : c = k <;> simp [setKey, lookupP, h]
  | cons hd t ih =>
      obtain ⟨hk, hv⟩ := hd
      by_cases h1 : hk = c
      · subst h1
        by_cases h2 : hk = k <;> simp [setKey, lookupP, h2]
      · by_cases h2 : hk = k
        · subst h2
          have : ¬ c = hk := fun h => h1 h.symm
          simp [setKey, lookupP, h1, this]
        · simp [setKey, lookupP, h1, h2, ih]

/-- Assigning to a key that is already bound leaves the key list of the
dictionary unchanged. -/
theorem setKey_keys (l : List (String × Pending)) (c : String) (v : Pending)
    (h : lookupP l c ≠ none) :
    (setKey l c v).map Prod.fst = l.map Prod.fst := by
  induction l with
  | nil => simp [lookupP] at h
  | cons hd t ih =>
      obtain ⟨hk, hv⟩ := hd
      by_cases h1 : hk = c
      · subst h1
        simp [setKey]
      · have h2 : lookupP t c ≠ none := by
          simpa [lookupP, h1] using h
        simp [setKey, h1, ih h2]

/-- Dispatching one decoded envelope changes the dictionary at most at the
envelope's own cid; every other key keeps its binding. -/
theorem stepOk_lookup_ne (s : SocketState) (e : Envelope) (k : String)
    (hk : k ≠ e.cid) :
    lookupP (stepOk s e).1.collatedPromises k = lookupP s.collatedPromises k := by
  unfold stepOk
  by_cases h0 : e.cid = ""
  · simp [h0]
  · simp only [h0, if_false]
    cases hl : lookupP s.collatedPromises e.cid with
    | none => simp
    | some p =>
        simp only
        cases hr : resolveCollated p.expected e.message with
        | completed o =>
            have : ¬ e.cid = k := fun h => hk h.symm
            simp [resolveStep, lookupP_setKey, this]
        | noEffect => simp [resolveStep]
        | crash => simp [resolveStep]

/-- Dispatching one decoded envelope whose cid is pending rewrites exactly
that cid's entry with the result of the collated switch. -/
theorem stepOk_lookup_self (s : SocketState) (e : Envelope) (p : Pending)
    (h0 : e.cid ≠ "") (hp : lookupP s.collatedPromises e.cid = some p) :
    lookupP (stepOk s e).1.collatedPromises e.cid
      = some (applyResolve p (resolveCollated p.expected e.message)) := by
  unfold stepOk
  simp only [h0, if_false, hp]
  cases hr : resolveCollated p.expected e.message with
  | completed o => simp [resolveStep, lookupP_setKey, applyResolve]
  | noEffect => simpa [resolveStep, applyResolve] using hp
  | crash => simpa [resolveStep, applyResolve] using hp

/-- Delivering a list of responses none of which carries the key leaves
the key's binding unchanged. -/
theorem processResponses_lookup_ne (es : List Envelope) (s : SocketState) (k : String)
    (h : ∀ f ∈ es, f.cid ≠ k) :
    lookupP (processResponses s es).collatedPromises k = lookupP s.collatedPromises k := by
  induction es generalizing s with
  | nil => rfl
  | cons e t ih =>
      have h1 : k ≠ e.cid := fun hEq => h e (List.mem_cons_self e t) hEq.symm
      calc lookupP (processResponses (stepOk s e).1 t).collatedPromises k
          = lookupP (stepOk s e).1.collatedPromises k :=
            ih (stepOk s e).1 (fun f hf => h f (List.mem_cons_of_mem e hf))
        _ = lookupP s.collatedPromises k := stepOk_lookup_ne s e k h1

/-- C2: for any interleaving of concurrent request() calls, each call's
completion value is taken from exactly the inbound response envelope
whose correlation id equals the id the registry assigned to that call,
independent of the order in which responses arrive: after delivering any
list of correlated responses with pairwise distinct non-empty cids, the
entry of a pending id is exactly the result of resolving that id's own
envelope against its stored promise, whatever the list order. -/
theorem response_routed_by_collation_id
    (es : List Envelope) (s : SocketState) (e : Envelope) (p : Pending)
    (he : e ∈ es)
    (hnodup : (es.map Envelope.cid).Nodup)
    (hall : ∀ f ∈ es, f.cid ≠ "")
    (hp : lookupP s.collatedPromises e.cid = some p) :
    lookupP (processResponses s es).collatedPromises e.cid
      = some (applyResolve p (resolveCollated p.expected e.message)) := by
  induction es generalizing s with
  | nil => cases he
  | cons f t ih =>
      rcases List.mem_cons.mp he with rfl | het
      · have hnotin : e.cid ∉ t.map Envelope.cid := by
          simp only [List.map_cons] at hnodup
          exact (List.nodup_cons.mp hnodup).1
        have h1 : ∀ g ∈ t, g.cid ≠ e.cid := by
          intro g hg hEq
          exact hnotin (hEq ▸ List.mem_map_of_mem Envelope.cid hg)
        rw [show processResponses s (e :: t) = processResponses (stepOk s e).1 t from rfl]
        rw [processResponses_lookup_ne t (stepOk s e).1 e.cid h1]
        exact stepOk_lookup_self s e p (hall e (List.mem_cons_self e t)) hp
      · have hfe : e.cid ≠ f.cid := by
          intro hEq
          have hnotin : f.cid ∉ t.map Envelope.cid := by
            simp only [List.map_cons] at hnodup
            exact (List.nodup_cons.mp hnodup).1
          exact hnotin (hEq ▸ List.mem_map_of_mem Envelope.cid het)
        have hnodup' : (t.map Envelope.cid).Nodup := by
          simp only [List.map_cons] at hnodup
          exact (List.nodup_cons.mp hnodup).2
        rw [show processResponses s (f :: t) = processResponses (stepOk s f).1 t from rfl]
        exact ih (stepOk s f).1 het hnodup' (fun g hg => hall g (List.mem_cons_of_mem f hg))
          (by rw [stepOk_lookup_ne s f e.cid hfe]; exact hp)

/-- Witness for response_routed_by_collation_id at Scenario D of the spec:
ids 4 and 5 pending, the server answers 5 first and then 4, and each
entry ends with its own response's result. -/
theorem response_routed_by_collation_id_witness :
    lookupP (processResponses
        ⟨5, [("4", ⟨ExpectedKind.matchMsg, none⟩), ("5", ⟨ExpectedKind.rpc, none⟩)]⟩
        [⟨"5", RTMessage.value PKind.rpc "r5"⟩,
         ⟨"4", RTMessage.value PKind.matchMsg "m4"⟩]).collatedPromises "4"
      = some (applyResolve ⟨ExpectedKind.matchMsg, none⟩
          (resolveCollated ExpectedKind.matchMsg (RTMessage.value PKind.matchMsg "m4"))) ∧
    lookupP (processResponses
        ⟨5, [("4", ⟨ExpectedKind.matchMsg, none⟩), ("5", ⟨ExpectedKind.rpc, none⟩)]⟩
        [⟨"5", RTMessage.value PKind.rpc "r5"⟩,
         ⟨"4", RTMessage.value PKind.matchMsg "m4"⟩]).collatedPromises "5"
      = some (applyResolve ⟨ExpectedKind.rpc, none⟩
          (resolveCollated ExpectedKind.rpc (RTMessage.value PKind.rpc "r5"))) :=
  ⟨response_routed_by_collation_id
      [⟨"5", RTMessage.value PKind.rpc "r5"⟩, ⟨"4", RTMessage.value PKind.matchMsg "m4"⟩]
      ⟨5, [("4", ⟨ExpectedKind.matchMsg, none⟩), ("5", ⟨ExpectedKind.rpc, none⟩)]⟩
      ⟨"4", RTMessage.value PKind.matchMsg "m4"⟩ ⟨ExpectedKind.matchMsg, none⟩
      (by decide) (by decide) (by decide) (by decide),
   response_routed_by_collation_id
      [⟨"5", RTMessage.value PKind.rpc "r5"⟩, ⟨"4", RTMessage.value PKind.matchMsg "m4"⟩]
      ⟨5, [("4", ⟨ExpectedKind.matchMsg, none⟩), ("5", ⟨ExpectedKind.rpc, none⟩)]⟩
      ⟨"5", RTMessage.value PKind.rpc "r5"⟩ ⟨ExpectedKind.rpc, none⟩
      (by decide) (by decide) (by decide) (by decide)⟩

/-- C1 counterexample: with one pending request registered under cid 1,
the disconnect transition leaves the registry exactly as it was, so the
map is not cleared and the pending entry is not failed: the claimed bulk
cancellation does not happen. -/
theorem disconnect_does_not_cancel_pending :
    (onDisconnectTransition ⟨1, [("1", ⟨ExpectedKind.rpc, none⟩)]⟩).1.collatedPromises
      = [("1", ⟨ExpectedKind.rpc, none⟩)] ∧
    (onDisconnectTransition ⟨1, [("1", ⟨ExpectedKind.rpc, none⟩)]⟩).1.collatedPromises ≠ [] ∧
    (⟨ExpectedKind.rpc, (none : Option Outcome)⟩ : Pending).result = none := by
  decide

/-- C1 amended: the adapter closures installed by Socket.init for the
disconnect and error transitions only fire the corresponding public
handler; no pending entry is failed or removed, and every binding of the
registry is exactly what it was before the transition. -/
theorem disconnect_transition_preserves_registry (s : SocketState) (c : String) :
    (onDisconnectTransition s).1 = s ∧
    (onDisconnectTransition s).2 = Effect.disconnectHandlerFired ∧
    (onErrorTransition s).1 = s ∧
    (onErrorTransition s).2 = Effect.errorHandlerFired ∧
    lookupP (onDisconnectTransition s).1.collatedPromises c
      = lookupP s.collatedPromises c :=
  ⟨rfl, rfl, rfl, rfl, rfl⟩

/-- C5 counterexample: the entry of cid 7 survives its own successful
resolution (its promise state records the value, but the key is still
bound), and a second response for the same cid is not treated as absent:
it is routed to the still-present entry and resolved again rather than
logged as an orphan. -/
theorem resolved_entry_still_present :
    lookupP ((onReceivedData ⟨7, [("7", ⟨ExpectedKind.channel, none⟩)]⟩
        (DecodeResult.ok ⟨"7", RTMessage.value PKind.channel "ch"⟩)).1).collatedPromises "7"
      = some ⟨ExpectedKind.channel, some (Outcome.value PKind.channel "ch")⟩ ∧
    (onReceivedData ((onReceivedData ⟨7, [("7", ⟨ExpectedKind.channel, none⟩)]⟩
        (DecodeResult.ok ⟨"7", RTMessage.value PKind.channel "ch"⟩)).1)
        (DecodeResult.ok ⟨"7", RTMessage.value PKind.channel "ch2"⟩)).2
      = Effect.resolved "7" (ResolveResult.completed (Outcome.value PKind.channel "ch2")) := by
  decide

/-- C5 amended: no resolution ever removes an entry: onReceivedData,
whatever the frame (decode failure, push, orphan, or any collated
resolution), leaves the key list of the registry unchanged, and the
disconnect transition does not clear it either. -/
theorem onReceivedData_preserves_keys (s : SocketState) (d : DecodeResult) :
    (onReceivedData s d).1.collatedPromises.map Prod.fst
        = s.collatedPromises.map Prod.fst ∧
    (onDisconnectTransition s).1.collatedPromises = s.collatedPromises := by
  refine ⟨?_, rfl⟩
  cases d with
  | failure => rfl
  | ok e =>
      unfold onReceivedData stepOk
      by_cases h0 : e.cid = ""
      · simp [h0]
      · simp only [h0, if_false]
        cases hl : lookupP s.collatedPromises e.cid with
        | none => rfl
        | some p =>
            simp only
            cases hr : resolveCollated p.expected e.message with
            | completed o =>
                simp only [resolveStep]
                exact setKey_keys _ _ _ (by rw [hl]; exact fun h => Option.noConfusion h)
            | noEffect => rfl
            | crash => rfl

/-- C10: Socket.connect opens the transport at a URL whose scheme is wss
when ssl is true and ws otherwise, with the configured host and port,
path /ws, query items token and format equal to protobuf, and a status
query item with value true or false appended exactly when appearOnline
is non-nil. -/
theorem connect_url_construction (host : String) (port : Int) (token : String) (b : Bool) :
    (connectURL host port true token none).scheme = "wss" ∧
    (connectURL host port false token none).scheme = "ws" ∧
    (connectURL host port b token none).urlHost = host ∧
    (connectURL host port b token none).urlPort = port ∧
    (connectURL host port b token none).path = "/ws" ∧
    (connectURL host port b token none).queryItems
      = [("token", token), ("format", "protobuf")] ∧
    (connectURL host port b token (some true)).queryItems
      = [("token", token), ("format", "protobuf"), ("status", "true")] ∧
    (connectURL host port b token (some false)).queryItems
      = [("token", token), ("format", "protobuf"), ("status", "false")] :=
  ⟨rfl, rfl, rfl, rfl, rfl, rfl, rfl, rfl⟩

/-- C3 evaluated at the failing input: a pending request whose promise was
created for Nakama_Api_Rpc receives a correlated error response; both
conditional casts of the error branch fail, so the collated switch has no
effect and the entry stays pending instead of failing with the remote
error, while the same error does fail an Empty-typed promise. -/
theorem error_response_skips_nonempty_promise :
    resolveCollated ExpectedKind.rpc (RTMessage.error 5 "not found")
      = ResolveResult.noEffect ∧
    (onReceivedData ⟨1, [("1", ⟨ExpectedKind.rpc, none⟩)]⟩
        (DecodeResult.ok ⟨"1", RTMessage.error 5 "not found"⟩)).1.collatedPromises
      = [("1", ⟨ExpectedKind.rpc, none⟩)] ∧
    resolveCollated ExpectedKind.empty (RTMessage.error 5 "not found")
      = ResolveResult.completed (Outcome.failed 5 "not found") := by
  decide

/-- C4 counterexample: a pending request expecting a Channel that receives
a correlated rpc response is not completed with any mismatch error; the
forced cast of the collated switch fails and the delivery path traps. -/
theorem kind_mismatch_traps_counterexample :
    resolveCollated ExpectedKind.channel (RTMessage.value PKind.rpc "x")
      = ResolveResult.crash := by
  decide

/-- C4 amended: when a correlated response's non-error payload kind is one
of the eight kinds the collated switch recognises and its promise type
differs from the pending entry's promise type, the forced runtime cast
fails and resolution traps; no ProtocolMismatchError completion exists. -/
theorem recognized_kind_mismatch_traps
    (expected t : ExpectedKind) (k : PKind) (b : String)
    (h1 : collatedExpected k = some t) (h2 : expected ≠ t) :
    resolveCollated expected (RTMessage.value k b) = ResolveResult.crash := by
  have hstep : resolveCollated expected (RTMessage.value k b)
      = match collatedExpected k with
        | some t =>
            if expected = t then ResolveResult.completed (Outcome.value k b)
            else ResolveResult.crash
        | none =>
            if expected = ExpectedKind.empty then ResolveResult.completed Outcome.unit
            else ResolveResult.noEffect := rfl
  rw [hstep, h1]
  simp [h2]

/-- Witness for recognized_kind_mismatch_traps: a Match-typed promise that
receives a correlated status response traps. -/
theorem recognized_kind_mismatch_traps_witness :
    resolveCollated ExpectedKind.matchMsg (RTMessage.value PKind.status "y")
      = ResolveResult.crash :=
  recognized_kind_mismatch_traps ExpectedKind.matchMsg ExpectedKind.status PKind.status "y"
    rfl (by decide)

/-- C6: a frame whose deserialisation throws is handled by the catch
block, which only logs and invokes the onError hook and leaves the state
untouched, and a correlated response whose cid has no entry only logs the
orphan cid and leaves the state untouched; both paths return normally. -/
theorem decode_failure_and_orphan_leave_registry
    (s : SocketState) (e : Envelope)
    (hne : e.cid ≠ "") (habs : lookupP s.collatedPromises e.cid = none) :
    onReceivedData s DecodeResult.failure
      = (s, Effect.decodeFailureLoggedAndErrorHook) ∧
    onReceivedData s (DecodeResult.ok e) = (s, Effect.orphan e.cid) := by
  refine ⟨rfl, ?_⟩
  show stepOk s e = (s, Effect.orphan e.cid)
  unfold stepOk
  rw [if_neg hne, habs]

/-- Witness for decode_failure_and_orphan_leave_registry on the empty
registry with an orphan cid of 9. -/
theorem decode_failure_and_orphan_leave_registry_witness :
    onReceivedData ⟨0, []⟩ DecodeResult.failure
      = (⟨0, []⟩, Effect.decodeFailureLoggedAndErrorHook) ∧
    onReceivedData ⟨0, []⟩ (DecodeResult.ok ⟨"9", RTMessage.value PKind.channel "x"⟩)
      = (⟨0, []⟩, Effect.orphan "9") :=
  decode_failure_and_orphan_leave_registry ⟨0, []⟩
    ⟨"9", RTMessage.value PKind.channel "x"⟩ (by decide) rfl

/-- C7 counterexample: a pending request whose promise is Empty-typed (a
no-value expectation) that receives a correlated channel response is not
completed with a unit value; the forced cast to a Channel-typed promise
fails and the delivery path traps. -/
theorem empty_expectation_crash_on_channel :
    resolveCollated ExpectedKind.empty (RTMessage.value PKind.channel "x")
      = ResolveResult.crash := by
  decide

/-- C7 amended: a no-value expectation completes successfully with a unit
value exactly when the correlated non-error response's kind is outside the
eight kinds the collated switch recognises (the default branch); a
recognised kind instead traps on the forced cast. -/
theorem empty_expectation_resolution (k : PKind) (b : String) :
    resolveCollated ExpectedKind.empty (RTMessage.value k b)
      = (match collatedExpected k with
          | none => ResolveResult.completed Outcome.unit
          | some _ => ResolveResult.crash) := by
  cases k <;> rfl

/-- C8 counterexample: sending from the fresh state with a serialisation
failure rethrows, yet the pending entry registered under the freshly
allocated cid 1 remains in the map, still pending, failed with nothing. -/
theorem encode_failure_entry_remains :
    (sendStep ⟨0, []⟩ ExpectedKind.channel true).2 = SendOutcome.encodeThrew "1" ∧
    (sendStep ⟨0, []⟩ ExpectedKind.channel true).1.collatedPromises
      = [("1", ⟨ExpectedKind.channel, none⟩)] := by
  decide

/-- C8 amended: when env.serializedData() throws, Socket.send rethrows to
the caller, but the entry it registered beforehand stays in the map with
its promise still pending and no TransportError is raised on it; every
other key keeps its binding. -/
theorem encode_failure_rethrow_keeps_entry
    (s : SocketState) (expected : ExpectedKind) (k : String)
    (hk : k ≠ toString (wrapInc s.collationCounter)) :
    (sendStep s expected true).2
      = SendOutcome.encodeThrew (toString (wrapInc s.collationCounter)) ∧
    lookupP (sendStep s expected true).1.collatedPromises
        (toString (wrapInc s.collationCounter))
      = some ⟨expected, none⟩ ∧
    lookupP (sendStep s expected true).1.collatedPromises k
      = lookupP s.collatedPromises k := by
  refine ⟨rfl, ?_, ?_⟩
  · simp [sendStep, lookupP_setKey]
  · have h : ¬ (toString (wrapInc s.collationCounter)) = k := fun h => hk h.symm
    simp [sendStep, lookupP_setKey, h]

/-- Witness for encode_failure_rethrow_keeps_entry on the fresh state. -/
theorem encode_failure_rethrow_keeps_entry_witness :
    (sendStep ⟨0, []⟩ ExpectedKind.channel true).2
      = SendOutcome.encodeThrew
          (toString (wrapInc (⟨0, []⟩ : SocketState).collationCounter)) ∧
    lookupP (sendStep ⟨0, []⟩ ExpectedKind.channel true).1.collatedPromises
        (toString (wrapInc (⟨0, []⟩ : SocketState).collationCounter))
      = some ⟨ExpectedKind.channel, none⟩ ∧
    lookupP (sendStep ⟨0, []⟩ ExpectedKind.channel true).1.collatedPromises "zz"
      = lookupP (⟨0, []⟩ : SocketState).collatedPromises "zz" :=
  encode_failure_rethrow_keeps_entry ⟨0, []⟩ ExpectedKind.channel "zz" (by decide)

/-- C9 counterexample: the Data overload of sendPartyData does create a
pending entry (it runs as a correlated request), so the registry is not
identical before and after the call. -/
theorem party_data_send_registers_entry :
    (sendPartyDataBinaryStep ⟨0, []⟩).1.collatedPromises
      = [("1", ⟨ExpectedKind.empty, none⟩)] ∧
    (sendPartyDataBinaryStep ⟨0, []⟩).1.collatedPromises ≠ [] ∧
    (sendPartyDataStringStep ⟨0, []⟩).2 = NotifyEffect.neverSent := by
  decide

/-- C9 amended: both sendMatchData overloads are fire-and-forget (the
envelope goes straight to the adapter and the registry is untouched), but
the party-data sends are not: the Data overload registers a pending
Empty-typed entry under a freshly allocated cid like any request, and the
String overload builds the envelope and never passes it to anything. -/
theorem notify_surface_registry_effects (s : SocketState) :
    sendMatchDataStep s = (s, NotifyEffect.sentWithoutEntry) ∧
    sendPartyDataStringStep s = (s, NotifyEffect.neverSent) ∧
    (sendPartyDataBinaryStep s).1.collatedPromises
      = setKey s.collatedPromises (toString (wrapInc s.collationCounter))
          ⟨ExpectedKind.empty, none⟩ ∧
    lookupP (sendPartyDataBinaryStep s).1.collatedPromises
        (toString (wrapInc s.collationCounter))
      = some ⟨ExpectedKind.empty, none⟩ := by
  refine ⟨rfl, rfl, rfl, ?_⟩
  simp [sendPartyDataBinaryStep, sendStep, lookupP_setKey]

end NakamaSocket
